import Mathlib

/-!
Verification of the weather-aggregation pipeline and its read-side services.

The development shallowly embeds the code of
`src/pipelines/data_processing/build_weather_datasets.py`,
`src/pipelines/cli/main.py`, `src/app/services/annual_data.py`,
`src/app/services/monthly_data.py` and `src/app/services/websocket.py`.

Modelling conventions:
* pandas DataFrames become Lean lists of structures; metric values are ℚ;
* a missing value (NaN) in the moving-average column becomes `Option ℚ`;
  the month-name column, which `Series.map` can leave as NaN, is `Option String`;
* `round(1)` becomes `round1` (round half up on rationals, to one decimal);
* Python exceptions become an `Except` with a constructor per exception class;
* the file system is an explicit state (folder name to files, path to contents).
-/

namespace Meteo

/-- Sum of a list of rationals, as pandas `sum` over a group column. -/
def listSum (l : List ℚ) : ℚ := l.foldr (· + ·) 0

/-- Maximum of a list of rationals (0 on the empty list, which never arises:
groupby only produces nonempty groups). -/
def listMax : List ℚ → ℚ
  | [] => 0
  | x :: xs => xs.foldl max x

/-- Minimum of a list of rationals (0 on the empty list). -/
def listMin : List ℚ → ℚ
  | [] => 0
  | x :: xs => xs.foldl min x

/-- Arithmetic mean of a list of rationals, as pandas `mean` over a group. -/
def listMean (l : List ℚ) : ℚ := listSum l / (l.length : ℚ)

/-- Rounding to one decimal place, the model of pandas `.round(1)`.
Tie behaviour (half up here, half even in IEEE floats) is never exercised by
the properties below, which treat `round1` as the rounding operator itself. -/
def round1 (q : ℚ) : ℚ := ((q * 10 + 1 / 2).num.fdiv ((q * 10 + 1 / 2).den : ℤ) : ℚ) / 10

/-- Strict lexicographic comparison of char lists by code point, the order
pandas uses when sorting a string column. -/
def charsLt : List Char → List Char → Bool
  | [], [] => false
  | [], _ :: _ => true
  | _ :: _, [] => false
  | a :: as, b :: bs => a.toNat < b.toNat || (a.toNat == b.toNat && charsLt as bs)

/-- Strict comparison of strings by code point. -/
def strLt (a b : String) : Bool := charsLt a.data b.data

/-- The six-entry aggregation operators of `AGG_SPEC`. -/
inductive AggOp
  | mean
  | max
  | min
  | sum
deriving DecidableEq, Repr

/-- Application of one aggregation operator to a group column. -/
def applyOp : AggOp → List ℚ → ℚ
  | .mean, l => listMean l
  | .max, l => listMax l
  | .min, l => listMin l
  | .sum, l => listSum l

/-- Embedding of the `AGG_SPEC` dict: output column, source column, operator. -/
def AGG_SPEC : List (String × String × AggOp) :=
  [("TMM", "TMM", .mean),
   ("TXAB", "TXAB", .max),
   ("TXMIN", "TXMIN", .min),
   ("NBJTX25", "NBJTX25", .sum),
   ("RR", "RR", .sum),
   ("RRAB", "RRAB", .max)]

/-- Embedding of the `MAPPING_MOIS` dict; `Series.map` yields NaN (here `none`)
outside the twelve keys. -/
def MAPPING_MOIS : ℕ → Option String := fun m =>
  if m = 1 then some "Janvier"
  else if m = 2 then some "Février"
  else if m = 3 then some "Mars"
  else if m = 4 then some "Avril"
  else if m = 5 then some "Mai"
  else if m = 6 then some "Juin"
  else if m = 7 then some "Juillet"
  else if m = 8 then some "Août"
  else if m = 9 then some "Septembre"
  else if m = 10 then some "Octobre"
  else if m = 11 then some "Novembre"
  else if m = 12 then some "Décembre"
  else none

/-- One raw observation row as read from a city CSV file. -/
structure Obs where
  NOM_USUEL : String
  AAAAMM : ℕ
  TMM : ℚ
  TXAB : ℚ
  TXMIN : ℚ
  NBJTX25 : ℚ
  RR : ℚ
  RRAB : ℚ
deriving DecidableEq, Repr

/-- An observation row decorated by `load_city_df` with `AAAA`, `MM`, `MOIS`. -/
structure ObsD extends Obs where
  AAAA : ℕ
  MM : ℕ
  MOIS : Option String
deriving DecidableEq, Repr

/-- The column derivations of `load_city_df`:
`df[AAAA] = df[AAAAMM] // 100; df[MM] = df[AAAAMM] % 100;
df[MOIS] = df[MM].map(MAPPING_MOIS)`. -/
def decorate (o : Obs) : ObsD :=
  { o with
    AAAA := o.AAAAMM / 100
    MM := o.AAAAMM % 100
    MOIS := MAPPING_MOIS (o.AAAAMM % 100) }

/-- Reading an observation column by name (used by the `AGG_SPEC` engine). -/
def colOf (r : ObsD) : String → ℚ := fun c =>
  if c = "TMM" then r.TMM
  else if c = "TXAB" then r.TXAB
  else if c = "TXMIN" then r.TXMIN
  else if c = "NBJTX25" then r.NBJTX25
  else if c = "RR" then r.RR
  else if c = "RRAB" then r.RRAB
  else 0

/-- Value of the aggregate output column `out` on a group `g`, as computed by
`df.groupby(...).agg(**AGG_SPEC)`: the operator and source column are the ones
paired with `out` in `AGG_SPEC`. -/
def aggCol (out : String) (g : List ObsD) : ℚ :=
  match AGG_SPEC.find? (fun e => e.1 == out) with
  | some e => applyOp e.2.2 (g.map (fun r => colOf r e.2.1))
  | none => 0

/-- One row of the yearly aggregate (groupby keys `AAAA`, `NOM_USUEL`). -/
structure YRow where
  AAAA : ℕ
  NOM_USUEL : String
  TMM : ℚ
  TXAB : ℚ
  TXMIN : ℚ
  NBJTX25 : ℚ
  RR : ℚ
  RRAB : ℚ
deriving DecidableEq, Repr

/-- One row of the monthly aggregate (groupby keys `AAAA`, `MM`, `MOIS`,
`NOM_USUEL`). -/
structure MRow where
  AAAA : ℕ
  MM : ℕ
  MOIS : Option String
  NOM_USUEL : String
  TMM : ℚ
  TXAB : ℚ
  TXMIN : ℚ
  NBJTX25 : ℚ
  RR : ℚ
  RRAB : ℚ
deriving DecidableEq, Repr

/-- Embedding of
`df.groupby([AAAA, NOM_USUEL], as_index=False).agg(**AGG_SPEC).round({TMM: 1})`:
one output row per distinct key of the input, fields per `AGG_SPEC`, rounding
applied to the aggregated `TMM` column only. -/
def aggYearly (rows : List ObsD) : List YRow :=
  ((rows.map (fun r => (r.AAAA, r.NOM_USUEL))).dedup).map (fun k =>
    let g := rows.filter (fun r => r.AAAA == k.1 && r.NOM_USUEL == k.2)
    { AAAA := k.1
      NOM_USUEL := k.2
      TMM := round1 (aggCol "TMM" g)
      TXAB := aggCol "TXAB" g
      TXMIN := aggCol "TXMIN" g
      NBJTX25 := aggCol "NBJTX25" g
      RR := aggCol "RR" g
      RRAB := aggCol "RRAB" g })

/-- Embedding of the monthly groupby. pandas `groupby` drops rows whose group
key contains NaN (`dropna=True` default), so rows with `MOIS = none` (month
code outside 1..12) contribute to no monthly group. -/
def aggMonthly (rows : List ObsD) : List MRow :=
  (((rows.filter (fun r => r.MOIS.isSome)).map
      (fun r => (r.AAAA, r.MM, r.MOIS, r.NOM_USUEL))).dedup).map (fun k =>
    let g := rows.filter (fun r =>
      r.AAAA == k.1 && r.MM == k.2.1 && r.MOIS == k.2.2.1 && r.NOM_USUEL == k.2.2.2)
    { AAAA := k.1
      MM := k.2.1
      MOIS := k.2.2.1
      NOM_USUEL := k.2.2.2
      TMM := round1 (aggCol "TMM" g)
      TXAB := aggCol "TXAB" g
      TXMIN := aggCol "TXMIN" g
      NBJTX25 := aggCol "NBJTX25" g
      RR := aggCol "RR" g
      RRAB := aggCol "RRAB" g })

/-- Lookup of the rolling history of one group key, empty when unseen. -/
def lookupHist : List (String × List ℚ) → String → List ℚ
  | [], _ => []
  | (k, v) :: rest, st => if k == st then v else lookupHist rest st

/-- Update of the rolling history of one group key. -/
def upsertHist : List (String × List ℚ) → String → List ℚ → List (String × List ℚ)
  | [], st, v => [(st, v)]
  | (k, w) :: rest, st, v =>
    if k == st then (st, v) :: rest else (k, w) :: upsertHist rest st v

/-- Value of a pandas trailing rolling mean at one position, given the full
sequence of group values seen so far: the window is the last `window` values,
the result is defined when at least `minp` values are in the window, and is
the mean rounded to one decimal (`rolling(window, min_periods).mean().round`). -/
def maAt (window minp : ℕ) (h : List ℚ) : Option ℚ :=
  if (h.drop (h.length - window)).length < minp then none
  else some (round1 (listMean (h.drop (h.length - window))))

/-- Walk of `groupby(group_col)[value_col].rolling(...).mean().round(...)` over
an already sorted frame: each row receives the rolling value of its own group,
computed from the values of that group seen so far (in frame order). -/
def rollGo {α : Type} (group : α → String) (value : α → ℚ) (window minp : ℕ) :
    List (String × List ℚ) → List α → List (α × Option ℚ)
  | _, [] => []
  | hist, r :: rest =>
    let h := lookupHist hist (group r) ++ [value r]
    (r, maAt window minp h) :: rollGo group value window minp (upsertHist hist (group r) h) rest

/-- Embedding of `add_ma5`: sort by the order columns (the relation `le`), then
per-group trailing rolling mean of `value`, rounded, paired to each row. -/
def add_ma5 {α : Type} (group : α → String) (value : α → ℚ)
    (le : α → α → Prop) [DecidableRel le] (window minp : ℕ)
    (rows : List α) : List (α × Option ℚ) :=
  rollGo group value window minp [] (List.insertionSort le rows)

/-- Boolean order on yearly rows by (`NOM_USUEL`, `AAAA`), the
`order_cols=[NOM_USUEL, AAAA]` of `build_yearly`. -/
def leYb (a b : YRow) : Bool :=
  strLt a.NOM_USUEL b.NOM_USUEL ||
    (a.NOM_USUEL == b.NOM_USUEL && decide (a.AAAA ≤ b.AAAA))

/-- Propositional form of `leYb`. -/
def leY (a b : YRow) : Prop := leYb a b = true

instance : DecidableRel leY := fun a b => inferInstanceAs (Decidable (_ = true))

/-- Boolean order on monthly rows by (`NOM_USUEL`, `AAAA`, `MM`), the
`order_cols=[NOM_USUEL, AAAA, MM]` of `build_monthly`. -/
def leMb (a b : MRow) : Bool :=
  strLt a.NOM_USUEL b.NOM_USUEL ||
    (a.NOM_USUEL == b.NOM_USUEL &&
      (decide (a.AAAA < b.AAAA) || (a.AAAA == b.AAAA && decide (a.MM ≤ b.MM))))

/-- Propositional form of `leMb`. -/
def leM (a b : MRow) : Prop := leMb a b = true

instance : DecidableRel leM := fun a b => inferInstanceAs (Decidable (_ = true))

/-- The `add_ma5` call of `build_yearly` (defaults: window 5, min_periods 5,
round 1 decimal, value `TMM`, group `NOM_USUEL`). -/
def addMA5Yearly (rows : List YRow) : List (YRow × Option ℚ) :=
  add_ma5 YRow.NOM_USUEL YRow.TMM leY 5 5 rows

/-- The `add_ma5` call of `build_monthly`. -/
def addMA5Monthly (rows : List MRow) : List (MRow × Option ℚ) :=
  add_ma5 MRow.NOM_USUEL MRow.TMM leM 5 5 rows

/-- Embedding of `build_yearly`: aggregate, then enrich with the moving
average. -/
def build_yearly (rows : List ObsD) : List (YRow × Option ℚ) :=
  addMA5Yearly (aggYearly rows)

/-- Embedding of `build_monthly`. -/
def build_monthly (rows : List ObsD) : List (MRow × Option ℚ) :=
  addMA5Monthly (aggMonthly rows)

/-- One CSV file of a city folder: extension (Python `Path.suffix`) and parsed
rows. -/
structure CsvFile where
  ext : String
  rows : List Obs
deriving DecidableEq, Repr

/-- The raw-data side of the file system: folder name to files, `none` when the
folder does not exist (`Path.iterdir` raises `FileNotFoundError`). -/
structure DataFS where
  folders : String → Option (List CsvFile)

/-- One entry of `config[stations]`: sub-folder and canonical station name. -/
structure StationCfg where
  folder : String
  name : String
deriving DecidableEq, Repr

/-- The configuration mapping, `config[stations]` as an association list. -/
structure Config where
  stations : List (String × StationCfg)
deriving DecidableEq, Repr

/-- Python dict lookup `config[stations][city]`. -/
def lookupCfg (cfg : Config) (city : String) : Option StationCfg :=
  match cfg.stations.find? (fun p => p.1 == city) with
  | some p => some p.2
  | none => none

/-- The Python exception classes the pipeline can raise, one constructor per
class. `configError` and `dataAccessError` stand for the dedicated error
conditions named by the specification; the code itself only ever produces the
three generic ones. -/
inductive PyError
  | keyError
  | fileNotFoundError
  | valueError
  | configError
  | dataAccessError
deriving DecidableEq, Repr

/-- Embedding of `load_city_df`: dict lookup of the city (raising `KeyError`
when absent), folder iteration (raising `FileNotFoundError` when the folder
does not exist), filter to `.csv` files, `pd.concat` (raising `ValueError` on
an empty file list), station-name filter, column derivation, year cutoff. -/
def load_city_df (city : String) (fs : DataFS) (cfg : Config) (ymax : ℕ) :
    Except PyError (List ObsD) :=
  match lookupCfg cfg city with
  | none => .error .keyError
  | some sc =>
    match fs.folders sc.folder with
    | none => .error .fileNotFoundError
    | some files =>
      let csvs := files.filter (fun f => f.ext == ".csv")
      if csvs.isEmpty then .error .valueError
      else
        let raw := (csvs.map CsvFile.rows).flatten
        let filtered := raw.filter (fun o => o.NOM_USUEL == sc.name)
        let dec := filtered.map decorate
        .ok (dec.filter (fun r => decide (r.AAAA < ymax)))

/-- Per-city build loop shared by `build_all_cities` and the CLI `build_cmd`:
load, aggregate both granularities, tag rows with the city, concatenate in
city-list order; any failure aborts the whole run. -/
def build_all_cities (cities : List String) (fs : DataFS) (cfg : Config) (ymax : ℕ) :
    Except PyError (List (YRow × Option ℚ × String) × List (MRow × Option ℚ × String)) :=
  match cities with
  | [] => .ok ([], [])
  | c :: rest =>
    match load_city_df c fs cfg ymax with
    | .error e => .error e
    | .ok df =>
      match build_all_cities rest fs cfg ymax with
      | .error e => .error e
      | .ok (ys, ms) =>
        .ok (((build_yearly df).map (fun p => (p.1, p.2, c))) ++ ys,
             ((build_monthly df).map (fun p => (p.1, p.2, c))) ++ ms)

/-- Deterministic textual form of a rational metric value (the byte-level
content a cell receives in the output file). -/
def ratStr (q : ℚ) : String := toString q.num ++ "/" ++ toString q.den

/-- Serialization of the moving-average cell; NaN is written as the empty
field by `to_csv`. -/
def maStr : Option ℚ → String
  | none => ""
  | some q => ratStr q

/-- Column order of the final yearly CSV: groupby keys first
(`as_index=False`), then the `AGG_SPEC` outputs, then `TMM_ma5`, then the
`ville` tag assigned last. -/
def yearlyHeader : List String :=
  ["AAAA", "NOM_USUEL", "TMM", "TXAB", "TXMIN", "NBJTX25", "RR", "RRAB", "TMM_ma5", "ville"]

/-- Column order of the final monthly CSV. -/
def monthlyHeader : List String :=
  ["AAAA", "MM", "MOIS", "NOM_USUEL", "TMM", "TXAB", "TXMIN", "NBJTX25", "RR", "RRAB",
   "TMM_ma5", "ville"]

/-- One line of the yearly output file. -/
def yearlyLine (sep : String) (e : YRow × Option ℚ × String) : String :=
  String.intercalate sep
    [toString e.1.AAAA, e.1.NOM_USUEL, ratStr e.1.TMM, ratStr e.1.TXAB, ratStr e.1.TXMIN,
     ratStr e.1.NBJTX25, ratStr e.1.RR, ratStr e.1.RRAB, maStr e.2.1, e.2.2]

/-- One line of the monthly output file. -/
def monthlyLine (sep : String) (e : MRow × Option ℚ × String) : String :=
  String.intercalate sep
    [toString e.1.AAAA, toString e.1.MM, (e.1.MOIS).getD "", e.1.NOM_USUEL, ratStr e.1.TMM,
     ratStr e.1.TXAB, ratStr e.1.TXMIN, ratStr e.1.NBJTX25, ratStr e.1.RR, ratStr e.1.RRAB,
     maStr e.2.1, e.2.2]

/-- Byte content of the yearly output file (`to_csv`: header row, no index). -/
def serializeYearly (sep : String) (rows : List (YRow × Option ℚ × String)) : String :=
  String.intercalate "\n"
    (String.intercalate sep yearlyHeader :: rows.map (yearlyLine sep)) ++ "\n"

/-- Byte content of the monthly output file. -/
def serializeMonthly (sep : String) (rows : List (MRow × Option ℚ × String)) : String :=
  String.intercalate "\n"
    (String.intercalate sep monthlyHeader :: rows.map (monthlyLine sep)) ++ "\n"

/-- Whole file-system state seen by the CLI `build_cmd`: the raw data folders
it reads and the output files it (over)writes. -/
structure PipeFS where
  data : DataFS
  outputs : String → Option String

/-- Unconditional overwrite of the two output files
(`final_yearly.to_csv(...)`, `final_monthly.to_csv(...)`). -/
def writeOutputs (ypath mpath sep : String) (ys : List (YRow × Option ℚ × String))
    (ms : List (MRow × Option ℚ × String)) (fs : PipeFS) : PipeFS :=
  { fs with
    outputs := fun p =>
      if p = mpath then some (serializeMonthly sep ms)
      else if p = ypath then some (serializeYearly sep ys)
      else fs.outputs p }

/-- Embedding of the effectful part of the CLI `build_cmd`: build all cities
and overwrite the two output files; a failed build aborts before any write. -/
def runBuildCmd (cities : List String) (cfg : Config) (ymax : ℕ)
    (ypath mpath sep : String) (fs : PipeFS) : PipeFS :=
  match build_all_cities cities fs.data cfg ymax with
  | .error _ => fs
  | .ok (ys, ms) => writeOutputs ypath mpath sep ys ms fs

/-- A CSV row of an output file as the services see it: an ordered mapping
from column name to cell text (`csv.DictReader`). -/
abbrev RawRow := List (String × String)

/-- Python `row.pop(k, "")`: the value under `k` (default empty) and the
mapping without `k`. -/
def popKey (k : String) (row : RawRow) : String × RawRow :=
  (match row.find? (fun p => p.1 == k) with
   | some p => p.2
   | none => "",
   row.filter (fun p => !(p.1 == k)))

/-- A reshaped annual record served by the read endpoint. -/
structure AnnualRecord where
  ville : String
  NOM_USUEL : String
  AAAA : String
  data : RawRow
deriving DecidableEq, Repr

/-- Embedding of `annual_data._reshape_row`: pop the three identity fields to
top level, keep everything else in the nested `data` mapping. -/
def reshapeAnnualRow (row : RawRow) : AnnualRecord :=
  let v := popKey "ville" row
  let n := popKey "NOM_USUEL" v.2
  let a := popKey "AAAA" n.2
  { ville := v.1, NOM_USUEL := n.1, AAAA := a.1, data := a.2 }

/-- A reshaped monthly record served by the read endpoint. -/
structure MonthlyRecord where
  ville : String
  NOM_USUEL : String
  AAAA : String
  MM : String
  MOIS : String
  data : RawRow
deriving DecidableEq, Repr

/-- Embedding of `monthly_data._reshape_row`. -/
def reshapeMonthlyRow (row : RawRow) : MonthlyRecord :=
  let v := popKey "ville" row
  let n := popKey "NOM_USUEL" v.2
  let a := popKey "AAAA" n.2
  let m := popKey "MM" a.2
  let mo := popKey "MOIS" m.2
  { ville := v.1, NOM_USUEL := n.1, AAAA := a.1, MM := m.1, MOIS := mo.1, data := mo.2 }

/-- Embedding of `annual_data.load_annual_data`. The file read is `none` when
opening or parsing raises; the module-level cache is assigned only after the
whole list is built, so a failure leaves it untouched. -/
def load_annual_data (file : Option (List RawRow)) (cache : Option (List AnnualRecord)) :
    Except Unit (List AnnualRecord) × Option (List AnnualRecord) :=
  match file with
  | none => (.error (), cache)
  | some rows =>
    let v := rows.map reshapeAnnualRow
    (.ok v, some v)

/-- Embedding of `annual_data.get_annual_data`: serve the cache when
populated, otherwise load. -/
def get_annual_data (file : Option (List RawRow)) (cache : Option (List AnnualRecord)) :
    Except Unit (List AnnualRecord) × Option (List AnnualRecord) :=
  match cache with
  | none => load_annual_data file cache
  | some v => (.ok v, cache)

/-- Embedding of `monthly_data.load_monthly_data`. -/
def load_monthly_data (file : Option (List RawRow)) (cache : Option (List MonthlyRecord)) :
    Except Unit (List MonthlyRecord) × Option (List MonthlyRecord) :=
  match file with
  | none => (.error (), cache)
  | some rows =>
    let v := rows.map reshapeMonthlyRow
    (.ok v, some v)

/-- Embedding of `monthly_data.get_monthly_data`. -/
def get_monthly_data (file : Option (List RawRow)) (cache : Option (List MonthlyRecord)) :
    Except Unit (List MonthlyRecord) × Option (List MonthlyRecord) :=
  match cache with
  | none => load_monthly_data file cache
  | some v => (.ok v, cache)

/-- Embedding of `ConnectionManager.disconnect` on the `active_connections`
list (websocket handles modelled by naturals): remove the first occurrence if
present, otherwise leave the list unchanged. -/
def disconnect (conns : List ℕ) (ws : ℕ) : List ℕ :=
  if ws ∈ conns then conns.erase ws else conns

theorem charToNat_inj {a b : Char} (h : a.toNat = b.toNat) : a = b :=
  Char.ext (UInt32.ext h)

theorem charsLt_trans : ∀ {as bs cs : List Char},
    charsLt as bs = true → charsLt bs cs = true → charsLt as cs = true
  | [], [], _ :: _, _, _ => rfl
  | [], _ :: _, _ :: _, _, _ => rfl
  | a :: as, b :: bs, c :: cs, h1, h2 => by
    simp only [charsLt, Bool.or_eq_true, Bool.and_eq_true, decide_eq_true_eq,
      beq_iff_eq] at h1 h2 ⊢
    rcases h1 with h1 | ⟨e1, t1⟩ <;> rcases h2 with h2 | ⟨e2, t2⟩
    · exact Or.inl (Nat.lt_trans h1 h2)
    · exact Or.inl (e2 ▸ h1)
    · exact Or.inl (e1 ▸ h2)
    · exact Or.inr ⟨e1.trans e2, charsLt_trans t1 t2⟩

theorem charsLt_total : ∀ (as bs : List Char),
    charsLt as bs = true ∨ as = bs ∨ charsLt bs as = true
  | [], [] => Or.inr (Or.inl rfl)
  | [], _ :: _ => Or.inl rfl
  | _ :: _, [] => Or.inr (Or.inr rfl)
  | a :: as, b :: bs => by
    rcases Nat.lt_trichotomy a.toNat b.toNat with h | h | h
    · exact Or.inl (by simp [charsLt, h])
    · rcases charsLt_total as bs with ht | ht | ht
      · exact Or.inl (by simp [charsLt, h, ht])
      · exact Or.inr (Or.inl (by rw [charToNat_inj h, ht]))
      · exact Or.inr (Or.inr (by simp [charsLt, h.symm, ht]))
    · exact Or.inr (Or.inr (by simp [charsLt, h]))

theorem strLt_trans {a b c : String} (h1 : strLt a b = true) (h2 : strLt b c = true) :
    strLt a c = true :=
  charsLt_trans h1 h2

theorem strLt_total (a b : String) : strLt a b = true ∨ a = b ∨ strLt b a = true := by
  rcases charsLt_total a.data b.data with h | h | h
  · exact Or.inl h
  · exact Or.inr (Or.inl (String.ext h))
  · exact Or.inr (Or.inr h)

instance : IsTotal YRow leY :=
  ⟨fun a b => by
    unfold leY leYb
    rcases strLt_total a.NOM_USUEL b.NOM_USUEL with h | h | h
    · exact Or.inl (by simp [h])
    · rcases Nat.le_total a.AAAA b.AAAA with h2 | h2
      · exact Or.inl (by simp [h, h2])
      · exact Or.inr (by simp [h, h2])
    · exact Or.inr (by simp [h])⟩

instance : IsTrans YRow leY :=
  ⟨fun a b c h1 h2 => by
    unfold leY leYb at h1 h2 ⊢
    simp only [Bool.or_eq_true, Bool.and_eq_true, decide_eq_true_eq, beq_iff_eq] at h1 h2 ⊢
    rcases h1 with h1 | ⟨e1, t1⟩ <;> rcases h2 with h2 | ⟨e2, t2⟩
    · exact Or.inl (strLt_trans h1 h2)
    · exact Or.inl (e2 ▸ h1)
    · exact Or.inl (e1 ▸ h2)
    · exact Or.inr ⟨e1.trans e2, Nat.le_trans t1 t2⟩⟩

instance : IsTotal MRow leM :=
  ⟨fun a b => by
    unfold leM leMb
    rcases strLt_total a.NOM_USUEL b.NOM_USUEL with h | h | h
    · exact Or.inl (by simp [h])
    · rcases Nat.lt_trichotomy a.AAAA b.AAAA with h2 | h2 | h2
      · exact Or.inl (by simp [h, h2])
      · rcases Nat.le_total a.MM b.MM with h3 | h3
        · exact Or.inl (by simp [h, h2, h3])
        · exact Or.inr (by simp [h, h2, h3])
      · exact Or.inr (by simp [h, h2])
    · exact Or.inr (by simp [h])⟩

instance : IsTrans MRow leM :=
  ⟨fun a b c h1 h2 => by
    unfold leM leMb at h1 h2 ⊢
    simp only [Bool.or_eq_true, Bool.and_eq_true, decide_eq_true_eq, beq_iff_eq] at h1 h2 ⊢
    rcases h1 with h1 | ⟨e1, t1⟩ <;> rcases h2 with h2 | ⟨e2, t2⟩
    · exact Or.inl (strLt_trans h1 h2)
    · exact Or.inl (e2 ▸ h1)
    · exact Or.inl (e1 ▸ h2)
    · refine Or.inr ⟨e1.trans e2, ?_⟩
      rcases t1 with t1 | ⟨f1, u1⟩ <;> rcases t2 with t2 | ⟨f2, u2⟩
      · exact Or.inl (Nat.lt_trans t1 t2)
      · exact Or.inl (f2 ▸ t1)
      · exact Or.inl (f1 ▸ t2)
      · exact Or.inr ⟨f1.trans f2, Nat.le_trans u1 u2⟩⟩

theorem lookupHist_upsert_self :
    ∀ (hist : List (String × List ℚ)) (st : String) (v : List ℚ),
      lookupHist (upsertHist hist st v) st = v
  | [], st, v => by simp [upsertHist, lookupHist]
  | (k, w) :: rest, st, v => by
    by_cases h : k = st
    · subst h
      simp [upsertHist, lookupHist]
    · simp [upsertHist, lookupHist, h, lookupHist_upsert_self rest st v]

theorem lookupHist_upsert_other :
    ∀ (hist : List (String × List ℚ)) (st st' : String) (v : List ℚ), st' ≠ st →
      lookupHist (upsertHist hist st v) st' = lookupHist hist st'
  | [], st, st', v, hne => by simp [upsertHist, lookupHist, Ne.symm hne]
  | (k, w) :: rest, st, st', v, hne => by
    by_cases h : k = st
    · subst h
      simp [upsertHist, lookupHist, Ne.symm hne]
    · by_cases h2 : k = st'
      · simp [upsertHist, lookupHist, h, h2, hne]
      · simp [upsertHist, lookupHist, h, h2, lookupHist_upsert_other rest st st' v hne]

theorem rollGo_map_fst {α : Type} (group : α → String) (value : α → ℚ)
    (window minp : ℕ) (hist : List (String × List ℚ)) (s : List α) :
    (rollGo group value window minp hist s).map Prod.fst = s := by
  induction s generalizing hist with
  | nil => rfl
  | cons r rest ih => simp [rollGo, ih]

/-- The per-group rolling column a trailing rolling mean must produce: the
value at group position `j` is the rolling value of the history up to and
including `j` (stated with an explicit accumulated history `pre`). -/
def specFrom (window minp : ℕ) (pre xs : List ℚ) : List (Option ℚ) :=
  (List.range xs.length).map (fun j => maAt window minp (pre ++ xs.take (j + 1)))

theorem specFrom_cons (window minp : ℕ) (pre : List ℚ) (v : ℚ) (xs : List ℚ) :
    specFrom window minp pre (v :: xs)
      = maAt window minp (pre ++ [v]) :: specFrom window minp (pre ++ [v]) xs := by
  unfold specFrom
  rw [List.length_cons, List.range_succ_eq_map, List.map_cons, List.map_map]
  refine congrArg₂ _ (by simp) ?_
  refine List.map_congr_left fun j _ => ?_
  show maAt window minp (pre ++ (v :: xs).take (j + 1 + 1)) = _
  rw [List.take_succ_cons, List.append_cons]

theorem rollGo_filter {α : Type} (group : α → String) (value : α → ℚ) (w m : ℕ) :
    ∀ (s : List α) (hist : List (String × List ℚ)) (st : String),
      ((rollGo group value w m hist s).filter (fun p => group p.1 == st)).map Prod.snd
        = specFrom w m (lookupHist hist st) ((s.filter (fun r => group r == st)).map value)
  | [], hist, st => by simp [rollGo, specFrom]
  | r :: rest, hist, st => by
    have ih := rollGo_filter group value w m rest
      (upsertHist hist (group r) (lookupHist hist (group r) ++ [value r])) st
    by_cases h : group r = st
    · rw [rollGo]
      simp only [List.filter_cons, h, beq_self_eq_true, if_pos, List.map_cons, List.map,
        List.filter, specFrom_cons]
      refine congrArg _ ?_
      rw [h] at ih
      rw [ih, lookupHist_upsert_self]
    · rw [rollGo]
      have hb : (group r == st) = false := by simp [h]
      simp only [List.filter_cons, hb, List.filter]
      rw [ih, lookupHist_upsert_other hist (group r) st _ (Ne.symm h)]

theorem maAt_take (xs : List ℚ) (j : ℕ) (hj : j < xs.length) :
    maAt 5 5 (xs.take (j + 1))
      = if j + 1 < 5 then none
        else some (round1 (listMean ((xs.take (j + 1)).drop (j + 1 - 5)))) := by
  have ht : (xs.take (j + 1)).length = j + 1 := by
    rw [List.length_take]
    omega
  simp only [maAt, ht, List.length_drop]
  by_cases h : j + 1 < 5
  · rw [if_pos (by omega : j + 1 - (j + 1 - 5) < 5), if_pos h]
  · rw [if_neg (by omega : ¬ j + 1 - (j + 1 - 5) < 5), if_neg h]

theorem specFrom_nil_eq (xs : List ℚ) :
    specFrom 5 5 [] xs
      = (List.range xs.length).map (fun j =>
          if j + 1 < 5 then none
          else some (round1 (listMean ((xs.take (j + 1)).drop (j + 1 - 5))))) := by
  unfold specFrom
  exact List.map_congr_left fun j hj => by
    rw [List.nil_append]
    exact maAt_take xs j (List.mem_range.mp hj)

theorem add_ma5_filter {α : Type} (group : α → String) (value : α → ℚ)
    (le : α → α → Prop) [DecidableRel le] (rows : List α) (st : String) :
    ((add_ma5 group value le 5 5 rows).filter (fun p => group p.1 == st)).map Prod.snd
      = (List.range ((((List.insertionSort le rows).filter
            (fun r => group r == st)).map value).length)).map (fun j =>
          let xs := (((List.insertionSort le rows).filter
            (fun r => group r == st)).map value)
          if j + 1 < 5 then none
          else some (round1 (listMean ((xs.take (j + 1)).drop (j + 1 - 5))))) := by
  rw [add_ma5, rollGo_filter]
  simp only [lookupHist]
  exact specFrom_nil_eq _

theorem decorate_MOIS_eq (o : Obs) : (decorate o).MOIS = MAPPING_MOIS (decorate o).MM := rfl

theorem MAPPING_MOIS_eq_none {m : ℕ} (hm : m < 1 ∨ 12 < m) : MAPPING_MOIS m = none := by
  have e1 : m ≠ 1 := by omega
  have e2 : m ≠ 2 := by omega
  have e3 : m ≠ 3 := by omega
  have e4 : m ≠ 4 := by omega
  have e5 : m ≠ 5 := by omega
  have e6 : m ≠ 6 := by omega
  have e7 : m ≠ 7 := by omega
  have e8 : m ≠ 8 := by omega
  have e9 : m ≠ 9 := by omega
  have e10 : m ≠ 10 := by omega
  have e11 : m ≠ 11 := by omega
  have e12 : m ≠ 12 := by omega
  simp [MAPPING_MOIS, e1, e2, e3, e4, e5, e6, e7, e8, e9, e10, e11, e12]

/-- Concrete configuration fixture: one city, Paris. -/
def scParis : StationCfg := { folder := "paris", name := "PARIS-MONTSOURIS" }

/-- Concrete configuration mapping containing only Paris. -/
def cfgP : Config := { stations := [("Paris", scParis)] }

/-- A raw observation whose year-month code has month 13. -/
def obs13 : Obs :=
  { NOM_USUEL := "PARIS-MONTSOURIS", AAAAMM := 202013,
    TMM := 0, TXAB := 0, TXMIN := 0, NBJTX25 := 0, RR := 0, RRAB := 0 }

/-- A raw observation for May 2020. -/
def obsMai : Obs :=
  { NOM_USUEL := "PARIS-MONTSOURIS", AAAAMM := 202005,
    TMM := 12, TXAB := 25, TXMIN := 2, NBJTX25 := 1, RR := 40, RRAB := 7 }

/-- A data folder holding one CSV file whose single row has month code 13. -/
def fs13 : DataFS :=
  { folders := fun f =>
      if f = "paris" then some [{ ext := ".csv", rows := [obs13] }] else none }

/-- A file system with no folders at all. -/
def fsNoFolders : DataFS := { folders := fun _ => none }

/-- A file system where the Paris folder exists but holds no files. -/
def fsEmptyDir : DataFS :=
  { folders := fun f => if f = "paris" then some [] else none }

/-- C3: for a valid year-month code `y*100 + m` with month 1..12, the loader
derives year `y` and month `m` by integer division and modulo by 100, and the
month name is the `MAPPING_MOIS` entry at the derived month, per the fixed
12-entry table (1 Janvier .. 12 Décembre). -/
theorem c3_year_month_code (o : Obs) (y m : ℕ) (h1 : 1 ≤ m) (h2 : m ≤ 12)
    (he : o.AAAAMM = y * 100 + m) :
    (decorate o).AAAA = y ∧ (decorate o).MM = m ∧
      (decorate o).MOIS = MAPPING_MOIS m ∧ (MAPPING_MOIS m).isSome = true ∧
      MAPPING_MOIS 1 = some "Janvier" ∧ MAPPING_MOIS 2 = some "Février" ∧
      MAPPING_MOIS 3 = some "Mars" ∧ MAPPING_MOIS 4 = some "Avril" ∧
      MAPPING_MOIS 5 = some "Mai" ∧ MAPPING_MOIS 6 = some "Juin" ∧
      MAPPING_MOIS 7 = some "Juillet" ∧ MAPPING_MOIS 8 = some "Août" ∧
      MAPPING_MOIS 9 = some "Septembre" ∧ MAPPING_MOIS 10 = some "Octobre" ∧
      MAPPING_MOIS 11 = some "Novembre" ∧ MAPPING_MOIS 12 = some "Décembre" := by
  have hdiv : o.AAAAMM / 100 = y := by omega
  have hmod : o.AAAAMM % 100 = m := by omega
  refine ⟨hdiv, hmod, ?_, ?_, rfl, rfl, rfl, rfl, rfl, rfl, rfl, rfl, rfl, rfl, rfl, rfl⟩
  · show MAPPING_MOIS (o.AAAAMM % 100) = MAPPING_MOIS m
    rw [hmod]
  · interval_cases m <;> rfl

/-- Witness for C3 at the concrete code 202005. -/
theorem c3_witness : (decorate obsMai).AAAA = 2020 ∧ (decorate obsMai).MM = 5 :=
  ⟨(c3_year_month_code obsMai 2020 5 (by decide) (by decide) (by decide)).1,
   (c3_year_month_code obsMai 2020 5 (by decide) (by decide) (by decide)).2.1⟩

/-- Counterexample for C5 as stated: on an input whose only row has year-month
code 202013 (month 13), `load_city_df` does not raise — it returns
successfully and the loaded row's month name is null. -/
theorem c5_counterexample :
    (load_city_df "Paris" fs13 cfgP 2026).isOk = true ∧
      ((load_city_df "Paris" fs13 cfgP 2026).toOption.getD []).map ObsD.MOIS = [none] := by
  decide

/-- C5 (amended): a month code outside 1..12 is not a loud failure: whenever
the city key, folder and csv files are present, `load_city_df` succeeds, the
unmapped month name is surfaced as null (`Series.map` yields NaN), and every
loaded row's month name is exactly the `MAPPING_MOIS` image of its month. -/
theorem c5_unmapped_month_is_null (city : String) (fs : DataFS) (cfg : Config)
    (ymax : ℕ) (sc : StationCfg) (files : List CsvFile) (o : Obs)
    (hc : lookupCfg cfg city = some sc)
    (hf : fs.folders sc.folder = some files)
    (hcsv : (files.filter (fun f => f.ext == ".csv")).isEmpty = false)
    (hm : o.AAAAMM % 100 < 1 ∨ 12 < o.AAAAMM % 100) :
    (load_city_df city fs cfg ymax).isOk = true ∧
      (decorate o).MOIS = none ∧
      ((load_city_df city fs cfg ymax).toOption.getD []).map ObsD.MOIS
        = ((load_city_df city fs cfg ymax).toOption.getD []).map
            (fun r => MAPPING_MOIS r.MM) := by
  refine ⟨?_, ?_, ?_⟩
  · simp only [load_city_df, hc, hf, hcsv, Bool.false_eq_true, if_false]
    rfl
  · exact MAPPING_MOIS_eq_none hm
  · refine List.map_congr_left fun r hr => ?_
    simp only [load_city_df, hc, hf, hcsv, Bool.false_eq_true, if_false,
      Except.toOption, Option.getD] at hr
    obtain ⟨hr1, _⟩ := List.mem_filter.mp hr
    obtain ⟨o2, _, rfl⟩ := List.mem_map.mp hr1
    rfl

/-- Witness for C5 amended, at the month-13 fixture. -/
theorem c5_witness :
    (load_city_df "Paris" fs13 cfgP 2026).isOk = true ∧ (decorate obs13).MOIS = none :=
  ⟨(c5_unmapped_month_is_null "Paris" fs13 cfgP 2026 scParis
      [{ ext := ".csv", rows := [obs13] }] obs13 (by decide) rfl (by decide)
      (by decide)).1,
   (c5_unmapped_month_is_null "Paris" fs13 cfgP 2026 scParis
      [{ ext := ".csv", rows := [obs13] }] obs13 (by decide) rfl (by decide)
      (by decide)).2.1⟩

/-- Counterexample for C6 as stated: for a city absent from the configuration
mapping, `load_city_df` fails with the generic mapping-lookup `KeyError`, not
with a dedicated configuration-error condition. -/
theorem c6_counterexample :
    load_city_df "Lyon" fsNoFolders cfgP 2026 = .error .keyError ∧
      load_city_df "Lyon" fsNoFolders cfgP 2026
        ≠ (.error .configError : Except PyError (List ObsD)) := by
  constructor
  · rfl
  · intro h
    rw [show load_city_df "Lyon" fsNoFolders cfgP 2026
          = (.error .keyError : Except PyError (List ObsD)) from rfl] at h
    exact PyError.noConfusion (Except.error.inj h)

/-- C6 (amended): the loader fails with the generic exceptions the Python code
actually raises: `KeyError` for a city key absent from the configuration
mapping, `FileNotFoundError` when the configured folder does not exist, and
`ValueError` (empty `pd.concat`) when the folder holds no csv files. -/
theorem c6_error_classes (city : String) (fs : DataFS) (cfg : Config) (ymax : ℕ)
    (sc : StationCfg) (files : List CsvFile) :
    (lookupCfg cfg city = none → load_city_df city fs cfg ymax = .error .keyError) ∧
    (lookupCfg cfg city = some sc → fs.folders sc.folder = none →
      load_city_df city fs cfg ymax = .error .fileNotFoundError) ∧
    (lookupCfg cfg city = some sc → fs.folders sc.folder = some files →
      (files.filter (fun f => f.ext == ".csv")).isEmpty = true →
      load_city_df city fs cfg ymax = .error .valueError) := by
  refine ⟨fun h => ?_, fun h1 h2 => ?_, fun h1 h2 h3 => ?_⟩
  · simp [load_city_df, h]
  · simp [load_city_df, h1, h2]
  · simp [load_city_df, h1, h2, h3]

/-- Witness for C6 amended: each of the three error paths at a concrete
input. -/
theorem c6_witness :
    load_city_df "Lyon" fsNoFolders cfgP 2026 = .error .keyError ∧
      load_city_df "Paris" fsNoFolders cfgP 2026 = .error .fileNotFoundError ∧
      load_city_df "Paris" fsEmptyDir cfgP 2026 = .error .valueError :=
  ⟨(c6_error_classes "Lyon" fsNoFolders cfgP 2026 scParis []).1 (by decide),
   (c6_error_classes "Paris" fsNoFolders cfgP 2026 scParis []).2.1 (by decide) rfl,
   (c6_error_classes "Paris" fsEmptyDir cfgP 2026 scParis []).2.2 (by decide) (by decide)
     (by decide)⟩

/-- C7: a failed read propagates the error, leaves the module cache
unpopulated (`None`), and a subsequent get call retries the load instead of
serving a cached failure — for both the annual and the monthly service. -/
theorem c7_failed_load_not_cached (file file2 mfile mfile2 : Option (List RawRow))
    (hf : file = none) (hmf : mfile = none) :
    (get_annual_data file none).1 = .error () ∧
      (get_annual_data file none).2 = none ∧
      get_annual_data file2 (get_annual_data file none).2
        = load_annual_data file2 (get_annual_data file none).2 ∧
      (get_monthly_data mfile none).1 = .error () ∧
      (get_monthly_data mfile none).2 = none ∧
      get_monthly_data mfile2 (get_monthly_data mfile none).2
        = load_monthly_data mfile2 (get_monthly_data mfile none).2 := by
  subst hf hmf
  exact ⟨rfl, rfl, rfl, rfl, rfl, rfl⟩

/-- Witness for C7 at a failing read. -/
theorem c7_witness :
    (get_annual_data none none).1 = .error () ∧ (get_annual_data none none).2 = none :=
  ⟨(c7_failed_load_not_cached none none none none rfl rfl).1,
   (c7_failed_load_not_cached none none none none rfl rfl).2.1⟩

/-- A concrete yearly output row as the annual service reads it. -/
def yRawRow : RawRow :=
  [("AAAA", "2020"), ("NOM_USUEL", "P"), ("TMM", "1"), ("TXAB", "2"), ("TXMIN", "3"),
   ("NBJTX25", "4"), ("RR", "5"), ("RRAB", "6"), ("TMM_ma5", "7"), ("ville", "Paris")]

/-- Counterexample for C9 as stated: on a row with the pipeline's yearly
columns, the nested `data` mapping is not exactly the six aggregate metrics —
it also carries the moving-average column `TMM_ma5`. -/
theorem c9_counterexample :
    (reshapeAnnualRow yRawRow).data.map Prod.fst
        ≠ ["TMM", "TXAB", "TXMIN", "NBJTX25", "RR", "RRAB"] ∧
      "TMM_ma5" ∈ (reshapeAnnualRow yRawRow).data.map Prod.fst := by
  decide

/-- C9 (amended): a served row has the identity fields at top level and a
nested `data` mapping holding exactly the six aggregate metrics plus the
moving-average column `TMM_ma5` (in pipeline column order), for both the
annual and the monthly endpoint; the pipeline's headers are exactly these. -/
theorem c9_reshape (a mm mo n t x tn nb r rb ma v : String) :
    reshapeAnnualRow
        [("AAAA", a), ("NOM_USUEL", n), ("TMM", t), ("TXAB", x), ("TXMIN", tn),
         ("NBJTX25", nb), ("RR", r), ("RRAB", rb), ("TMM_ma5", ma), ("ville", v)]
      = { ville := v, NOM_USUEL := n, AAAA := a,
          data := [("TMM", t), ("TXAB", x), ("TXMIN", tn), ("NBJTX25", nb), ("RR", r),
                   ("RRAB", rb), ("TMM_ma5", ma)] } ∧
    reshapeMonthlyRow
        [("AAAA", a), ("MM", mm), ("MOIS", mo), ("NOM_USUEL", n), ("TMM", t), ("TXAB", x),
         ("TXMIN", tn), ("NBJTX25", nb), ("RR", r), ("RRAB", rb), ("TMM_ma5", ma),
         ("ville", v)]
      = { ville := v, NOM_USUEL := n, AAAA := a, MM := mm, MOIS := mo,
          data := [("TMM", t), ("TXAB", x), ("TXMIN", tn), ("NBJTX25", nb), ("RR", r),
                   ("RRAB", rb), ("TMM_ma5", ma)] } ∧
    yearlyHeader
      = ["AAAA", "NOM_USUEL", "TMM", "TXAB", "TXMIN", "NBJTX25", "RR", "RRAB", "TMM_ma5",
         "ville"] ∧
    monthlyHeader
      = ["AAAA", "MM", "MOIS", "NOM_USUEL", "TMM", "TXAB", "TXMIN", "NBJTX25", "RR", "RRAB",
         "TMM_ma5", "ville"] :=
  ⟨rfl, rfl, rfl, rfl⟩

/-- Counterexample for C10 as stated: with a duplicated handle in
`active_connections`, disconnecting twice removes two occurrences — not the
same effect as disconnecting once. -/
theorem c10_counterexample :
    disconnect (disconnect [0, 0] 0) 0 ≠ disconnect [0, 0] 0 := by
  decide

/-- C10 (amended): disconnecting an absent websocket is always a no-op and
raises nothing, and disconnect is idempotent on every state in which the
websocket occurs at most once (duplicate-free states, the invariant a
connect/disconnect discipline maintains). -/
theorem c10_disconnect_idempotent (conns : List ℕ) (ws : ℕ) :
    (ws ∉ conns → disconnect conns ws = conns) ∧
      (List.count ws conns ≤ 1 →
        disconnect (disconnect conns ws) ws = disconnect conns ws) := by
  constructor
  · intro h
    simp [disconnect, h]
  · intro h
    by_cases hm : ws ∈ conns
    · have h1 : List.count ws conns = 1 :=
        le_antisymm h (List.count_pos_iff.mpr hm)
      have h2 : List.count ws (conns.erase ws) = 0 := by
        rw [List.count_erase_self, h1]
      have h3 : ws ∉ conns.erase ws := by
        intro hx
        have := List.count_pos_iff.mpr hx
        omega
      simp [disconnect, hm, h3]
    · simp [disconnect, hm]

/-- Witness for C10 amended at a concrete state. -/
theorem c10_witness :
    disconnect [1] 0 = [1] ∧ disconnect (disconnect [1] 0) 0 = disconnect [1] 0 :=
  ⟨(c10_disconnect_idempotent [1] 0).1 (by decide),
   (c10_disconnect_idempotent [1] 0).2 (by decide)⟩

/-- The sorted yearly table produced inside `add_ma5` for yearly inputs. -/
def sortedYearly (yrows : List YRow) : List YRow := List.insertionSort leY yrows

/-- The sorted monthly table produced inside `add_ma5` for monthly inputs. -/
def sortedMonthly (mrows : List MRow) : List MRow := List.insertionSort leM mrows

/-- C2: the enricher (as invoked by `build_yearly` / `build_monthly`) sorts
rows ascending by (station, year), resp. (station, year, month); the rows of
the output are exactly the sorted input rows; and within each station group
the moving-average column is null for the first `min_periods - 1 = 4`
positions and, from the fifth onward, is the rounded (1 decimal) mean of the
trailing window of 5 values. -/
theorem c2_moving_average (yrows : List YRow) (mrows : List MRow) (st : String) :
    ((addMA5Yearly yrows).map Prod.fst = sortedYearly yrows
      ∧ (sortedYearly yrows).Perm yrows
      ∧ List.Sorted leY (sortedYearly yrows)
      ∧ ((addMA5Yearly yrows).filter (fun p => p.1.NOM_USUEL == st)).map Prod.snd
          = (List.range ((((sortedYearly yrows).filter
                (fun r => r.NOM_USUEL == st)).map YRow.TMM).length)).map (fun j =>
              if j + 1 < 5 then none
              else some (round1 (listMean (((((sortedYearly yrows).filter
                    (fun r => r.NOM_USUEL == st)).map YRow.TMM).take (j + 1)).drop
                  (j + 1 - 5))))))
    ∧ ((addMA5Monthly mrows).map Prod.fst = sortedMonthly mrows
      ∧ (sortedMonthly mrows).Perm mrows
      ∧ List.Sorted leM (sortedMonthly mrows)
      ∧ ((addMA5Monthly mrows).filter (fun p => p.1.NOM_USUEL == st)).map Prod.snd
          = (List.range ((((sortedMonthly mrows).filter
                (fun r => r.NOM_USUEL == st)).map MRow.TMM).length)).map (fun j =>
              if j + 1 < 5 then none
              else some (round1 (listMean (((((sortedMonthly mrows).filter
                    (fun r => r.NOM_USUEL == st)).map MRow.TMM).take (j + 1)).drop
                  (j + 1 - 5)))))) :=
  ⟨⟨rollGo_map_fst YRow.NOM_USUEL YRow.TMM 5 5 [] (List.insertionSort leY yrows),
    List.perm_insertionSort leY yrows,
    List.sorted_insertionSort leY yrows,
    add_ma5_filter YRow.NOM_USUEL YRow.TMM leY yrows st⟩,
   ⟨rollGo_map_fst MRow.NOM_USUEL MRow.TMM 5 5 [] (List.insertionSort leM mrows),
    List.perm_insertionSort leM mrows,
    List.sorted_insertionSort leM mrows,
    add_ma5_filter MRow.NOM_USUEL MRow.TMM leM mrows st⟩⟩

/-- C8: rebuilding over the file system produced by a run writes byte-wise
the same two output files (full state idempotence), and the built tables are
a function of the raw-data side and configuration alone. -/
theorem c8_deterministic_rebuild (cities : List String) (cfg : Config) (ymax : ℕ)
    (ypath mpath sep : String) (fs fs2 : PipeFS) (hdata : fs2.data = fs.data) :
    runBuildCmd cities cfg ymax ypath mpath sep
        (runBuildCmd cities cfg ymax ypath mpath sep fs)
      = runBuildCmd cities cfg ymax ypath mpath sep fs
    ∧ build_all_cities cities fs2.data cfg ymax = build_all_cities cities fs.data cfg ymax := by
  constructor
  · rcases hb : build_all_cities cities fs.data cfg ymax with e | p
    · simp [runBuildCmd, hb]
    · obtain ⟨ys, ms⟩ := p
      have h1 : runBuildCmd cities cfg ymax ypath mpath sep fs
          = writeOutputs ypath mpath sep ys ms fs := by
        simp [runBuildCmd, hb]
      rw [h1]
      have h3 : build_all_cities cities (writeOutputs ypath mpath sep ys ms fs).data cfg ymax
          = .ok (ys, ms) := by
        rw [show (writeOutputs ypath mpath sep ys ms fs).data = fs.data from rfl, hb]
      simp only [runBuildCmd, h3]
      unfold writeOutputs
      congr 1
      funext q
      by_cases hq : q = mpath
      · simp [hq]
      · by_cases hy : q = ypath
        · simp [hq, hy]
        · simp [hq, hy]
  · rw [hdata]

/-- Empty pipeline file system used by witnesses. -/
def fs0 : PipeFS := { data := fsNoFolders, outputs := fun _ => none }

/-- Witness for C8 at a concrete file-system state. -/
theorem c8_witness :
    runBuildCmd [] cfgP 2026 "final_yearly.csv" "final_monthly.csv" ";"
        (runBuildCmd [] cfgP 2026 "final_yearly.csv" "final_monthly.csv" ";" fs0)
      = runBuildCmd [] cfgP 2026 "final_yearly.csv" "final_monthly.csv" ";" fs0 :=
  (c8_deterministic_rebuild [] cfgP 2026 "final_yearly.csv" "final_monthly.csv" ";"
    fs0 fs0 rfl).1

/-- The yearly output row at a given position. -/
def yearlyRowAt (rows : List ObsD) (i : ℕ) (hi : i < (build_yearly rows).length) : YRow :=
  ((build_yearly rows).get ⟨i, hi⟩).1

/-- The monthly output row at a given position. -/
def monthlyRowAt (rows : List ObsD) (j : ℕ) (hj : j < (build_monthly rows).length) : MRow :=
  ((build_monthly rows).get ⟨j, hj⟩).1

/-- The input rows contributing to a yearly output row: same year and
station. -/
def yearlyGroupOf (rows : List ObsD) (p : YRow) : List ObsD :=
  rows.filter (fun r => r.AAAA == p.AAAA && r.NOM_USUEL == p.NOM_USUEL)

/-- The input rows contributing to a monthly output row: same year, month,
month name and station. -/
def monthlyGroupOf (rows : List ObsD) (q : MRow) : List ObsD :=
  rows.filter (fun r =>
    r.AAAA == q.AAAA && r.MM == q.MM && r.MOIS == q.MOIS && r.NOM_USUEL == q.NOM_USUEL)

theorem yearlyRowAt_mem_agg (rows : List ObsD) (i : ℕ)
    (hi : i < (build_yearly rows).length) :
    yearlyRowAt rows i hi ∈ aggYearly rows := by
  have h1 : yearlyRowAt rows i hi ∈ (build_yearly rows).map Prod.fst :=
    List.mem_map_of_mem Prod.fst (List.get_mem _ _ _)
  rw [show (build_yearly rows).map Prod.fst
        = List.insertionSort leY (aggYearly rows) from
      rollGo_map_fst YRow.NOM_USUEL YRow.TMM 5 5 [] _] at h1
  exact ((List.perm_insertionSort leY (aggYearly rows)).mem_iff).mp h1

theorem monthlyRowAt_mem_agg (rows : List ObsD) (j : ℕ)
    (hj : j < (build_monthly rows).length) :
    monthlyRowAt rows j hj ∈ aggMonthly rows := by
  have h1 : monthlyRowAt rows j hj ∈ (build_monthly rows).map Prod.fst :=
    List.mem_map_of_mem Prod.fst (List.get_mem _ _ _)
  rw [show (build_monthly rows).map Prod.fst
        = List.insertionSort leM (aggMonthly rows) from
      rollGo_map_fst MRow.NOM_USUEL MRow.TMM 5 5 [] _] at h1
  exact ((List.perm_insertionSort leM (aggMonthly rows)).mem_iff).mp h1

/-- C1: every yearly and monthly output row carries exactly the six
aggregates of its own group: mean of TMM rounded to one decimal, max of TXAB,
min of TXMIN, sum of NBJTX25, sum of RR, max of RRAB — and no other rounding
(the other five aggregates are the raw operator values). -/
theorem c1_agg_spec (rows : List ObsD) (i : ℕ) (hi : i < (build_yearly rows).length)
    (j : ℕ) (hj : j < (build_monthly rows).length) :
    ((yearlyRowAt rows i hi).TMM
        = round1 (listMean ((yearlyGroupOf rows (yearlyRowAt rows i hi)).map
            (fun r => r.TMM)))
      ∧ (yearlyRowAt rows i hi).TXAB
        = listMax ((yearlyGroupOf rows (yearlyRowAt rows i hi)).map (fun r => r.TXAB))
      ∧ (yearlyRowAt rows i hi).TXMIN
        = listMin ((yearlyGroupOf rows (yearlyRowAt rows i hi)).map (fun r => r.TXMIN))
      ∧ (yearlyRowAt rows i hi).NBJTX25
        = listSum ((yearlyGroupOf rows (yearlyRowAt rows i hi)).map (fun r => r.NBJTX25))
      ∧ (yearlyRowAt rows i hi).RR
        = listSum ((yearlyGroupOf rows (yearlyRowAt rows i hi)).map (fun r => r.RR))
      ∧ (yearlyRowAt rows i hi).RRAB
        = listMax ((yearlyGroupOf rows (yearlyRowAt rows i hi)).map (fun r => r.RRAB)))
    ∧ ((monthlyRowAt rows j hj).TMM
        = round1 (listMean ((monthlyGroupOf rows (monthlyRowAt rows j hj)).map
            (fun r => r.TMM)))
      ∧ (monthlyRowAt rows j hj).TXAB
        = listMax ((monthlyGroupOf rows (monthlyRowAt rows j hj)).map (fun r => r.TXAB))
      ∧ (monthlyRowAt rows j hj).TXMIN
        = listMin ((monthlyGroupOf rows (monthlyRowAt rows j hj)).map (fun r => r.TXMIN))
      ∧ (monthlyRowAt rows j hj).NBJTX25
        = listSum ((monthlyGroupOf rows (monthlyRowAt rows j hj)).map (fun r => r.NBJTX25))
      ∧ (monthlyRowAt rows j hj).RR
        = listSum ((monthlyGroupOf rows (monthlyRowAt rows j hj)).map (fun r => r.RR))
      ∧ (monthlyRowAt rows j hj).RRAB
        = listMax ((monthlyGroupOf rows (monthlyRowAt rows j hj)).map (fun r => r.RRAB))) := by
  constructor
  · obtain ⟨k, hk, he⟩ := List.mem_map.mp (yearlyRowAt_mem_agg rows i hi)
    rw [← he]
    exact ⟨rfl, rfl, rfl, rfl, rfl, rfl⟩
  · obtain ⟨k, hk, he⟩ := List.mem_map.mp (monthlyRowAt_mem_agg rows j hj)
    rw [← he]
    exact ⟨rfl, rfl, rfl, rfl, rfl, rfl⟩

/-- A one-row loaded table for May 2020. -/
def rows1 : List ObsD := [decorate obsMai]

theorem rows1_ylen : 0 < (build_yearly rows1).length := by decide

theorem rows1_mlen : 0 < (build_monthly rows1).length := by decide

/-- Witness for C1 at a concrete one-row table. -/
theorem c1_witness :
    (yearlyRowAt rows1 0 rows1_ylen).TMM
      = round1 (listMean ((yearlyGroupOf rows1 (yearlyRowAt rows1 0 rows1_ylen)).map
          (fun r => r.TMM))) :=
  (c1_agg_spec rows1 0 rows1_ylen 0 rows1_mlen).1.1

/-- A one-row loaded table whose only row has the invalid month 13. -/
def rows13 : List ObsD := [decorate obs13]

/-- Counterexample for C4 as stated: a loaded table can contain a row with an
unmapped month (null `MOIS`); the monthly groupby drops it, so its
(year, month, station) triple is present in the input but appears in no
monthly output row. -/
theorem c4_counterexample :
    ¬ (List.count (2020, 13, "PARIS-MONTSOURIS")
          ((build_monthly rows13).map (fun p => (p.1.AAAA, p.1.MM, p.1.NOM_USUEL)))
        = if (2020, 13, "PARIS-MONTSOURIS")
              ∈ rows13.map (fun r => (r.AAAA, r.MM, r.NOM_USUEL)) then 1 else 0) := by
  decide

theorem nodup_count_ite {α : Type} [BEq α] [LawfulBEq α] {l : List α} (hl : l.Nodup)
    (a : α) : List.count a l = if a ∈ l then 1 else 0 := by
  induction l with
  | nil => simp
  | cons x xs ih =>
    rw [List.count_cons]
    rcases List.nodup_cons.mp hl with ⟨hx, hxs⟩
    by_cases hax : a = x
    · subst hax
      rw [List.count_eq_zero_of_not_mem hx]
      simp
    · rw [ih hxs]
      by_cases hmem : a ∈ xs
      · simp [hmem, hax]
        exact fun h => hax h.symm
      · simp [hmem, hax]
        exact fun h => hax h.symm

/-- C4 (amended): the yearly output has exactly one row per distinct
(year, station) pair of the input, and the monthly output exactly one row per
distinct (year, month, station) triple among the rows whose month maps
(`MOIS` non-null); no group key ever appears without contributing rows. -/
theorem c4_group_keys (rows : List ObsD)
    (hm : ∀ r ∈ rows, r.MOIS = MAPPING_MOIS r.MM) (y m : ℕ) (st : String) :
    List.count (y, st) ((build_yearly rows).map (fun p => (p.1.AAAA, p.1.NOM_USUEL)))
        = (if (y, st) ∈ rows.map (fun r => (r.AAAA, r.NOM_USUEL)) then 1 else 0)
    ∧ List.count (y, m, st)
          ((build_monthly rows).map (fun p => (p.1.AAAA, p.1.MM, p.1.NOM_USUEL)))
        = (if (y, m, st) ∈ (rows.filter (fun r => (MAPPING_MOIS r.MM).isSome)).map
              (fun r => (r.AAAA, r.MM, r.NOM_USUEL)) then 1 else 0) := by
  constructor
  · have hperm : ((build_yearly rows).map Prod.fst).Perm (aggYearly rows) := by
      rw [show (build_yearly rows).map Prod.fst
            = List.insertionSort leY (aggYearly rows) from
          rollGo_map_fst YRow.NOM_USUEL YRow.TMM 5 5 [] _]
      exact List.perm_insertionSort leY _
    have hstep : (build_yearly rows).map (fun p => (p.1.AAAA, p.1.NOM_USUEL))
        = ((build_yearly rows).map Prod.fst).map (fun q => (q.AAAA, q.NOM_USUEL)) := by
      rw [List.map_map]
      rfl
    have hcount :
        List.count (y, st) ((build_yearly rows).map (fun p => (p.1.AAAA, p.1.NOM_USUEL)))
          = List.count (y, st) ((aggYearly rows).map (fun q => (q.AAAA, q.NOM_USUEL))) := by
      rw [hstep]
      exact (hperm.map (fun q => (q.AAAA, q.NOM_USUEL))).countP_eq _
    have hagg : (aggYearly rows).map (fun q => (q.AAAA, q.NOM_USUEL))
        = (rows.map (fun r => (r.AAAA, r.NOM_USUEL))).dedup := by
      unfold aggYearly
      rw [List.map_map]
      exact List.map_id _
    rw [hcount, hagg, nodup_count_ite (List.nodup_dedup _)]
    simp [List.mem_dedup]
  · have hperm : ((build_monthly rows).map Prod.fst).Perm (aggMonthly rows) := by
      rw [show (build_monthly rows).map Prod.fst
            = List.insertionSort leM (aggMonthly rows) from
          rollGo_map_fst MRow.NOM_USUEL MRow.TMM 5 5 [] _]
      exact List.perm_insertionSort leM _
    have hstep : (build_monthly rows).map (fun p => (p.1.AAAA, p.1.MM, p.1.NOM_USUEL))
        = ((build_monthly rows).map Prod.fst).map (fun q => (q.AAAA, q.MM, q.NOM_USUEL)) := by
      rw [List.map_map]
      rfl
    have hcount :
        List.count (y, m, st)
            ((build_monthly rows).map (fun p => (p.1.AAAA, p.1.MM, p.1.NOM_USUEL)))
          = List.count (y, m, st)
              ((aggMonthly rows).map (fun q => (q.AAAA, q.MM, q.NOM_USUEL))) := by
      rw [hstep]
      exact (hperm.map (fun q => (q.AAAA, q.MM, q.NOM_USUEL))).countP_eq _
    have hproj : (aggMonthly rows).map (fun q => (q.AAAA, q.MM, q.NOM_USUEL))
        = (((rows.filter (fun r => r.MOIS.isSome)).map
              (fun r => (r.AAAA, r.MM, r.MOIS, r.NOM_USUEL))).dedup).map
            (fun k => (k.1, k.2.1, k.2.2.2)) := by
      unfold aggMonthly
      rw [List.map_map]
      rfl
    have hnodup :
        ((((rows.filter (fun r => r.MOIS.isSome)).map
            (fun r => (r.AAAA, r.MM, r.MOIS, r.NOM_USUEL))).dedup).map
          (fun k => (k.1, k.2.1, k.2.2.2))).Nodup := by
      apply List.Nodup.map_on _ (List.nodup_dedup _)
      intro x hx z hz hxz
      have hxm : x.2.2.1 = MAPPING_MOIS x.2.1 := by
        obtain ⟨r, hr, hq⟩ := List.mem_map.mp (List.mem_dedup.mp hx)
        rw [← hq]
        exact hm r (List.mem_filter.mp hr).1
      have hzm : z.2.2.1 = MAPPING_MOIS z.2.1 := by
        obtain ⟨r, hr, hq⟩ := List.mem_map.mp (List.mem_dedup.mp hz)
        rw [← hq]
        exact hm r (List.mem_filter.mp hr).1
      obtain ⟨x1, x2, x3, x4⟩ := x
      obtain ⟨z1, z2, z3, z4⟩ := z
      simp only [Prod.mk.injEq] at hxz hxm hzm ⊢
      obtain ⟨e1, e2, e4⟩ := hxz
      exact ⟨e1, e2, by rw [hxm, hzm, e2], e4⟩
    have hmemiff :
        ((y, m, st) ∈ ((((rows.filter (fun r => r.MOIS.isSome)).map
              (fun r => (r.AAAA, r.MM, r.MOIS, r.NOM_USUEL))).dedup).map
            (fun k => (k.1, k.2.1, k.2.2.2))))
          ↔ ((y, m, st) ∈ (rows.filter (fun r => r.MOIS.isSome)).map
              (fun r => (r.AAAA, r.MM, r.NOM_USUEL))) := by
      simp only [List.mem_map, List.mem_dedup]
      constructor
      · rintro ⟨k, ⟨r, hr, rfl⟩, hpk⟩
        exact ⟨r, hr, hpk⟩
      · rintro ⟨r, hr, hpk⟩
        exact ⟨(r.AAAA, r.MM, r.MOIS, r.NOM_USUEL), ⟨r, hr, rfl⟩, hpk⟩
    have hvalid : rows.filter (fun r => r.MOIS.isSome)
        = rows.filter (fun r => (MAPPING_MOIS r.MM).isSome) :=
      List.filter_congr (fun r hr => by rw [hm r hr])
    rw [hcount, hproj, ← hvalid, nodup_count_ite hnodup]
    simp only [hmemiff]

/-- Witness for C4 at a concrete valid one-row table. -/
theorem c4_witness :
    List.count (2020, "PARIS-MONTSOURIS")
        ((build_yearly rows1).map (fun p => (p.1.AAAA, p.1.NOM_USUEL)))
      = if (2020, "PARIS-MONTSOURIS")
            ∈ rows1.map (fun r => (r.AAAA, r.NOM_USUEL)) then 1 else 0 :=
  (c4_group_keys rows1 (by decide) 2020 5 "PARIS-MONTSOURIS").1

end Meteo
